import Mathlib

/-!
# REMS report-submission service: a shallow embedding

This file embeds the two request handlers of the REMS repository
(`src/app.py` and `src/App.py`, both defining a `submit_report` Flask view)
as pure Lean functions, and proves the testable properties of the
specification against them.

Modelling conventions:
* Strings are Lean `String`s; the Python character predicates
  (`str.isalpha`, `str.isdigit`, `str.strip`) are modelled on their ASCII
  fragment, which is the fragment every claim exercises.
* Python `float` values are modelled as `Rat`; `float(...)` / `int(...)`
  string conversion is modelled on plain decimal literals
  (optional sign, digits, optional fraction part), again the fragment the
  claims exercise.  A failed conversion is a `ValueError`.
* `datetime.strptime(s, "%Y-%m-%d")` is modelled by `strptimeYmd`:
  four year digits, one or two month and day digits, month and day ranges
  checked (leap years included).  Calling it on a missing field (`None`)
  is a `TypeError`, as in Python.
* The database session is modelled by its observable content: the committed
  tables plus the id counter.  Rows staged by `session.add` become visible
  only when the handler reaches `commit`; every exception path of both
  handlers runs `rollback`, which discards the staged rows, so an aborted
  request leaves the committed tables untouched.  External failures
  (a failing flush/commit, a mail transport that raises) are injected
  through an `Oracle`.
* The upload directory is a list of file paths; writes performed before an
  exception survive it (the filesystem is not transactional).
-/

/-- A form / JSON field map: ordered key-value pairs, first match wins
(Werkzeug `MultiDict.get` returns the first value for a key). -/
abbrev FieldMap := List (String × String)

/-- `m.get(k)` returning `None` when the key is absent. -/
def fmGet (m : FieldMap) (k : String) : Option String :=
  (m.find? (fun p => p.1 == k)).map Prod.snd

/-- `m.get(k, d)` with a string default. -/
def fmGetD (m : FieldMap) (k d : String) : String :=
  (fmGet m k).getD d

/-- ASCII fragment of Python `str.isalpha` (non-empty, all alphabetic). -/
def pyIsAlpha (l : List Char) : Bool :=
  !l.isEmpty && l.all Char.isAlpha

/-- ASCII fragment of Python `str.isdigit` (non-empty, all digits). -/
def pyIsDigit (l : List Char) : Bool :=
  !l.isEmpty && l.all Char.isDigit

/-- Strip leading and trailing whitespace from a character list. -/
def stripChars (l : List Char) : List Char :=
  ((l.dropWhile Char.isWhitespace).reverse.dropWhile Char.isWhitespace).reverse

/-- Python `str.strip()` on its ASCII-whitespace fragment. -/
def pyStrip (s : String) : String :=
  String.mk (stripChars s.toList)

/-- Non-empty all-digit character list (helper for the numeric conversions). -/
def allDigits (l : List Char) : Bool :=
  !l.isEmpty && l.all Char.isDigit

/-- Value of a digit list read in base 10. -/
def digitsToNat (l : List Char) : Nat :=
  l.foldl (fun n c => 10 * n + (c.toNat - 48)) 0

/-- Split a character list on a separator character, `str.split` style:
the empty list yields one empty field. -/
def splitChar (c : Char) : List Char → List (List Char)
  | [] => [[]]
  | x :: xs =>
      let r := splitChar c xs
      if x == c then [] :: r
      else
        match r with
        | [] => [[x]]
        | y :: ys => (x :: y) :: ys

/-- Python exceptions that the two handlers can observe. -/
inductive PyErr
  | valueError
  | typeError
  | dbError
  | smtpError
deriving DecidableEq, Repr

/-- `str(e)` as the handlers put it into an error response body. -/
def pyErrMsg : PyErr → String
  | .valueError => "ValueError"
  | .typeError => "TypeError"
  | .dbError => "DatabaseError"
  | .smtpError => "SMTPException"

/-- `int(s)` on decimal literals: optional surrounding whitespace,
optional sign, digits; anything else raises `ValueError`. -/
def pyInt? (s : String) : Option Int :=
  match stripChars s.toList with
  | '-' :: r => if allDigits r then some (-(Int.ofNat (digitsToNat r))) else none
  | '+' :: r => if allDigits r then some (Int.ofNat (digitsToNat r)) else none
  | r => if allDigits r then some (Int.ofNat (digitsToNat r)) else none

/-- `float(s)` on plain decimal literals `[+-]digits[.digits]`
(with at least one digit), as a rational number. -/
def pyFloat? (s : String) : Option Rat :=
  let t := stripChars s.toList
  let sgn : Rat := if t.headD ' ' == '-' then -1 else 1
  let u := if t.headD ' ' == '-' || t.headD ' ' == '+' then t.tail else t
  match splitChar '.' u with
  | [a] =>
      if allDigits a then some (sgn * ((digitsToNat a : Nat) : Rat)) else none
  | [a, b] =>
      if (a.isEmpty || allDigits a) && (b.isEmpty || allDigits b)
          && !(a.isEmpty && b.isEmpty) then
        some (sgn * (((digitsToNat a : Nat) : Rat)
          + ((digitsToNat b : Nat) : Rat) / ((10 : Rat) ^ b.length)))
      else none
  | _ => none

/-- A calendar date as produced by `datetime.strptime(·, "%Y-%m-%d").date()`. -/
structure PyDate where
  year : Nat
  month : Nat
  day : Nat
deriving DecidableEq, Repr

/-- Gregorian leap year. -/
def isLeapYear (y : Nat) : Bool :=
  (y % 4 == 0 && y % 100 != 0) || y % 400 == 0

/-- Days in a month, leap years included. -/
def daysInMonth (y m : Nat) : Nat :=
  if m == 2 then (if isLeapYear y then 29 else 28)
  else if m == 4 || m == 6 || m == 9 || m == 11 then 30
  else 31

/-- `datetime.strptime(s, "%Y-%m-%d")`: four year digits, one or two month
and day digits, ranges checked.  `none` models the `ValueError` raised on
an unparseable date. -/
def strptimeYmd (s : String) : Option PyDate :=
  match splitChar '-' s.toList with
  | [ys, ms, ds] =>
      if ys.length == 4 && allDigits ys
          && allDigits ms && ms.length ≤ 2
          && allDigits ds && ds.length ≤ 2 then
        let y := digitsToNat ys
        let m := digitsToNat ms
        let d := digitsToNat ds
        if 1 ≤ m && m ≤ 12 && 1 ≤ d && d ≤ daysInMonth y m then
          some ⟨y, m, d⟩
        else none
      else none
  | _ => none

/-- A row of the `repair_reports` table (both files declare the same
`RepairReport` model).  `container_number` and `technician_name` carry
`NOT NULL` constraints in the schema; the model keeps them as `Option`
because `App.py` can pass `None` for either. -/
structure RepairReport where
  container_number : Option String
  report_date : PyDate
  technician_name : Option String
  model : Option String
  serial_number : Option String
  warranty_id : Option String
  warranty_status : Option String
  setpoint : Rat
  vents : Option String
  humidity : Option String
  ambient_temp : Rat
  supply_temp_before : Rat
  supply_temp_after : Rat
  return_temp_before : Rat
  return_temp_after : Rat
  temp_in_range : Option String
  problem_description : Option String
  comments : Option String
deriving DecidableEq, Repr

/-- A row of the `repair_jobs` table. -/
structure RepairJob where
  report_id : Nat
  job_code : Option String
  description : Option String
  part_number : Option String
  part_description : Option String
  quantity : Int
  damage_type : Option String
  old_serial : Option String
  new_serial : Option String
  labor_hours : Rat
deriving DecidableEq, Repr

/-- A row of the `alarms` table. -/
structure Alarm where
  report_id : Nat
  alarm_code : String
deriving DecidableEq, Repr

/-- The committed content of the database plus the report id counter. -/
structure DBState where
  nextReportId : Nat
  reports : List (Nat × RepairReport)
  repair_jobs : List RepairJob
  alarms : List Alarm
deriving DecidableEq, Repr

/-- Database plus upload directory. -/
structure ServerState where
  db : DBState
  disk : List String
deriving DecidableEq, Repr

/-- One inbound HTTP request.  `form` holds the single-valued form fields,
`formAlarms` the repeated `alarm[]` form entries (both empty for a pure JSON
request), `jsonBody` the parsed JSON object when the content type is JSON,
and `files` the filenames of `request.files`. -/
structure Request where
  isJson : Bool
  form : FieldMap
  formAlarms : List String
  jsonBody : FieldMap
  files : List String
deriving DecidableEq, Repr

/-- Failure injection for the external collaborators: the database
(flush / commit) and the SMTP transport. -/
structure Oracle where
  flushFails : Bool
  commitFails : Bool
  emailFails : Bool
deriving DecidableEq, Repr

/-- The JSON body of the handlers' responses, plus the HTTP status code. -/
structure Response where
  status : String
  message : String
  httpCode : Nat
  report_id : Option Nat
deriving DecidableEq, Repr

/-- Truthiness of `request.form`: the form `MultiDict` is truthy when it
holds any field, the repeated `alarm[]` entries included. -/
def formTruthy (req : Request) : Bool :=
  !req.form.isEmpty || !req.formAlarms.isEmpty

/-- `form_data = request.form if request.form else request.get_json()`
(src/app.py:131). -/
def formDataOf (req : Request) : FieldMap :=
  if formTruthy req then req.form else req.jsonBody

/-- The container-number check of src/app.py:136:
`len(c) == 11 and c[:4].isalpha() and c[4:].isdigit()`. -/
def containerFormatOk (c : String) : Bool :=
  c.toList.length == 11 && pyIsAlpha (c.toList.take 4) && pyIsDigit (c.toList.drop 4)

/-- `float(form_data.get(k, 0))`: an absent field defaults to `0`,
a present unparseable one raises `ValueError`. -/
def floatField (fd : FieldMap) (k : String) : Except PyErr Rat :=
  match fmGet fd k with
  | none => .ok 0
  | some v =>
      match pyFloat? v with
      | some q => .ok q
      | none => .error .valueError

/-- `int(form_data.get(k, d))`: an absent field defaults to `d`,
a present unparseable one (the empty string included) raises `ValueError`. -/
def getIntDefault (fd : FieldMap) (k : String) (d : Int) : Except PyErr Int :=
  match fmGet fd k with
  | none => .ok d
  | some s =>
      match pyInt? s with
      | some n => .ok n
      | none => .error .valueError

/-- `int(v or d)` for an optional string `v` (src/app.py:183): `None` and
the empty string fall back to `d`, anything else must parse. -/
def orDefaultInt (v : Option String) (d : Int) : Except PyErr Int :=
  match v with
  | none => .ok d
  | some s =>
      if s == "" then .ok d
      else
        match pyInt? s with
        | some n => .ok n
        | none => .error .valueError

/-- `float(v or 0)` for an optional string `v` (src/app.py:187). -/
def orDefaultFloat (v : Option String) : Except PyErr Rat :=
  match v with
  | none => .ok 0
  | some s =>
      if s == "" then .ok 0
      else
        match pyFloat? s with
        | some q => .ok q
        | none => .error .valueError

/-- `datetime.strptime(form_data.get("datum"), "%Y-%m-%d")`: a missing
field is `strptime(None, ...)`, a `TypeError`; a present unparseable one a
`ValueError`. -/
def strptimeField (fd : FieldMap) : Except PyErr PyDate :=
  match fmGet fd "datum" with
  | none => .error .typeError
  | some v =>
      match strptimeYmd v with
      | some d => .ok d
      | none => .error .valueError

/-- Building the `RepairReport` row, shared by both files (src/app.py:140,
src/App.py:178); the two differ only in the `container_number` argument.
The fallible conversions appear in the source's keyword-argument order. -/
def buildReport (fd : FieldMap) (container : Option String) :
    Except PyErr RepairReport :=
  match strptimeField fd with
  | .error e => .error e
  | .ok d =>
  match floatField fd "setpoint" with
  | .error e => .error e
  | .ok sp =>
  match floatField fd "ambient" with
  | .error e => .error e
  | .ok amb =>
  match floatField fd "supply_voor" with
  | .error e => .error e
  | .ok sv =>
  match floatField fd "supply_na" with
  | .error e => .error e
  | .ok sn =>
  match floatField fd "return_voor" with
  | .error e => .error e
  | .ok rv =>
  match floatField fd "return_na" with
  | .error e => .error e
  | .ok rn =>
  .ok { container_number := container
        report_date := d
        technician_name := fmGet fd "naam"
        model := fmGet fd "model"
        serial_number := fmGet fd "serienr"
        warranty_id := fmGet fd "warranty_id"
        warranty_status := fmGet fd "garantie"
        setpoint := sp
        vents := fmGet fd "vents"
        humidity := fmGet fd "hum"
        ambient_temp := amb
        supply_temp_before := sv
        supply_temp_after := sn
        return_temp_before := rv
        return_temp_after := rn
        temp_in_range := fmGet fd "temp_in_range"
        problem_description := fmGet fd "probleem"
        comments := fmGet fd "opmerkingen" }

/-- The indexed form key `job[i][field]` built by both files. -/
def jobKey (i : Nat) (field : String) : String :=
  "job[" ++ toString i ++ "][" ++ field ++ "]"

/-- One `RepairJob` row as src/app.py:166-188 builds it: every field fetched
with `.get` (absent becomes `None`), `quantity = int(x or 1)`,
`labor_hours = float(x or 0)`. -/
def buildJob_app (fd : FieldMap) (rid : Nat) (i : Nat) :
    Except PyErr RepairJob :=
  match orDefaultInt (fmGet fd (jobKey i "quantity")) 1 with
  | .error e => .error e
  | .ok q =>
  match orDefaultFloat (fmGet fd (jobKey i "labor_hours")) with
  | .error e => .error e
  | .ok lh =>
  .ok { report_id := rid
        job_code := fmGet fd (jobKey i "code")
        description := fmGet fd (jobKey i "description")
        part_number := fmGet fd (jobKey i "part_number")
        part_description := fmGet fd (jobKey i "part_description")
        quantity := q
        damage_type := fmGet fd (jobKey i "damage_type")
        old_serial := fmGet fd (jobKey i "old_serial")
        new_serial := fmGet fd (jobKey i "new_serial")
        labor_hours := lh }

/-- One `RepairJob` row as src/App.py:204-215 builds it:
`quantity = int(form_data.get(key, 1))`,
`labor_hours = float(form_data.get(key, 0))`. -/
def buildJob_App (fd : FieldMap) (rid : Nat) (i : Nat) :
    Except PyErr RepairJob :=
  match getIntDefault fd (jobKey i "quantity") 1 with
  | .error e => .error e
  | .ok q =>
  match floatField fd (jobKey i "labor_hours") with
  | .error e => .error e
  | .ok lh =>
  .ok { report_id := rid
        job_code := fmGet fd (jobKey i "code")
        description := fmGet fd (jobKey i "description")
        part_number := fmGet fd (jobKey i "part_number")
        part_description := fmGet fd (jobKey i "part_description")
        quantity := q
        damage_type := fmGet fd (jobKey i "damage_type")
        old_serial := fmGet fd (jobKey i "old_serial")
        new_serial := fmGet fd (jobKey i "new_serial")
        labor_hours := lh }

/-- The `for i in range(job_count)` loop: build and stage one job per index,
aborting the request on the first conversion error. -/
def buildJobsFrom (build : Nat → Except PyErr RepairJob) :
    List Nat → Except PyErr (List RepairJob)
  | [] => .ok []
  | i :: rest =>
      match build i with
      | .error e => .error e
      | .ok j =>
        match buildJobsFrom build rest with
        | .error e => .error e
        | .ok js => .ok (j :: js)

/-- The alarm loop shared by both files (src/app.py:192-197,
src/App.py:219-221): each entry of `request.form.getlist("alarm[]")` is
stripped; truthy (non-empty) remainders are staged as `Alarm` rows. -/
def alarmRows (alarms : List String) (rid : Nat) : List Alarm :=
  alarms.filterMap (fun a =>
    let t := pyStrip a
    if t ≠ "" then some { report_id := rid, alarm_code := t } else none)

/-- `allowed_file` (src/app.py:237, src/App.py:97): a dot is present and the
lowercased text after the last dot is an allowed image extension. -/
def allowed_file (filename : String) : Bool :=
  let parts := splitChar '.' filename.toList
  decide (2 ≤ parts.length)
    && ["png", "jpg", "jpeg", "gif"].contains
        (String.mk ((parts.getLastD []).map Char.toLower))

/-- The upload loop of src/app.py:200-206: each file with a truthy
`FileStorage` (non-empty filename) and an allowed extension is written to
the upload directory; returns the saved paths and the new directory
content.  File naming (`secure_filename`) is modelled as the identity. -/
def saveFiles_app : List String → List String → List String × List String
  | [], disk => ([], disk)
  | name :: rest, disk =>
      if name != "" && allowed_file name then
        let pr := saveFiles_app rest (disk ++ [name])
        (name :: pr.1, pr.2)
      else
        saveFiles_app rest disk

/-- `process_uploaded_files` (src/App.py:101-118): skip files with an empty
name or a disallowed extension, save the rest.  The timestamped
`safe_name` is modelled as the original filename. -/
def process_uploaded_files : List String → List String → List String × List String
  | [], disk => ([], disk)
  | name :: rest, disk =>
      if name == "" || !allowed_file name then
        process_uploaded_files rest disk
      else
        let pr := process_uploaded_files rest (disk ++ [name])
        (name :: pr.1, pr.2)

/-- `cleanup_files` (src/App.py:120-125): `os.remove` each saved path;
a failed removal (file absent) is logged and skipped. -/
def cleanup_files : List String → List String → List String
  | [], disk => disk
  | p :: rest, disk => cleanup_files rest (disk.erase p)

/-- The success response body both handlers return. -/
def successResponse (rid : Nat) : Response :=
  { status := "success", message := "Report submitted successfully",
    httpCode := 200, report_id := some rid }

/-- src/app.py:225-235: `ValueError` is answered with 400 and the error
text; every other exception with 500 and a generic message. -/
def errResponse_app (e : PyErr) : Response :=
  match e with
  | .valueError =>
      { status := "error", message := pyErrMsg PyErr.valueError,
        httpCode := 400, report_id := none }
  | _ =>
      { status := "error", message := "Internal server error",
        httpCode := 500, report_id := none }

/-- src/App.py:241-247: every exception is answered with 500 and `str(e)`. -/
def errResponse_App (e : PyErr) : Response :=
  { status := "error", message := pyErrMsg e, httpCode := 500, report_id := none }

namespace app_py

/-- The `/api/submit` handler of src/app.py:125-235.

Control flow, in source order: the unsupported-media check (line 128), the
container-number check (line 136), building the report row (line 140,
`ValueError`/`TypeError` possible), `add` + `flush` (line 161, the flush
performs the insert, so a database failure or a `NOT NULL` violation on
`technician_name` raises here), the job loop (line 165), the alarm loop
(line 192, reading `request.form.getlist`), the upload loop (line 200),
the mail attempt inside its own `try` whose exception is only logged
(lines 209-216), `commit` (line 218) and the success response.  Every
exception lands in the handlers of lines 225-235, which roll the session
back — discarding all staged rows — and answer 400 (`ValueError`) or 500. -/
def submit_report (req : Request) (o : Oracle) (st : ServerState) :
    Response × ServerState :=
  if !req.isJson && !formTruthy req then
    ({ status := "error", message := "Unsupported content type",
       httpCode := 415, report_id := none }, st)
  else
    let fd := formDataOf req
    let container_nr := fmGetD fd "containernr" ""
    if !containerFormatOk container_nr then
      ({ status := "error", message := "Invalid container number format",
         httpCode := 400, report_id := none }, st)
    else
      match buildReport fd (some container_nr) with
      | .error e => (errResponse_app e, st)
      | .ok report =>
        if o.flushFails || !report.technician_name.isSome then
          (errResponse_app PyErr.dbError, st)
        else
          let rid := st.db.nextReportId
          match getIntDefault fd "job_count" 0 with
          | .error e => (errResponse_app e, st)
          | .ok jc =>
            match buildJobsFrom (buildJob_app fd rid) (List.range jc.toNat) with
            | .error e => (errResponse_app e, st)
            | .ok jrows =>
              let arows := alarmRows req.formAlarms rid
              let sf := saveFiles_app req.files st.disk
              let _mail : Except PyErr Unit :=
                if o.emailFails then .error PyErr.smtpError else .ok ()
              if o.commitFails then
                (errResponse_app PyErr.dbError, { st with disk := sf.2 })
              else
                (successResponse rid,
                 { db := { nextReportId := rid + 1
                           reports := st.db.reports ++ [(rid, report)]
                           repair_jobs := st.db.repair_jobs ++ jrows
                           alarms := st.db.alarms ++ arows }
                   disk := sf.2 })

end app_py

namespace App_py

/-- The `/submit` handler of src/App.py:171-247.

Control flow, in source order: `form_data = request.form` (line 174 — the
JSON body is never consulted and there is no content-type or container
check), building the report row (line 178), the job loop (line 202), the
alarm loop (line 219), `commit` (line 223 — the inserts happen here, so a
database failure or a `NOT NULL` violation on `container_number` or
`technician_name` raises here), then — after the commit — saving uploads,
`send_email` with no inner handler (line 228), `cleanup_files` (line 233)
and the success response.  Every exception lands in the single handler of
lines 241-247: `rollback` (a no-op once the commit has happened) and a
500 response; a mail failure therefore skips the cleanup and turns the
response into an error even though the rows stay committed. -/
def submit_report (req : Request) (o : Oracle) (st : ServerState) :
    Response × ServerState :=
  let fd := req.form
  match buildReport fd (fmGet fd "containernr") with
  | .error e => (errResponse_App e, st)
  | .ok report =>
    match getIntDefault fd "job_count" 0 with
    | .error e => (errResponse_App e, st)
    | .ok jc =>
      match buildJobsFrom (buildJob_App fd st.db.nextReportId) (List.range jc.toNat) with
      | .error e => (errResponse_App e, st)
      | .ok jrows =>
        let rid := st.db.nextReportId
        let arows := alarmRows req.formAlarms rid
        if o.commitFails
            || !(report.container_number.isSome && report.technician_name.isSome) then
          (errResponse_App PyErr.dbError, st)
        else
          let db1 : DBState :=
            { nextReportId := rid + 1
              reports := st.db.reports ++ [(rid, report)]
              repair_jobs := st.db.repair_jobs ++ jrows
              alarms := st.db.alarms ++ arows }
          let pr := process_uploaded_files req.files st.disk
          if o.emailFails then
            (errResponse_App PyErr.smtpError, { db := db1, disk := pr.2 })
          else
            (successResponse rid, { db := db1, disk := cleanup_files pr.1 pr.2 })

end App_py

/-! ## Concrete fixtures used by the witnesses and counterexamples -/

/-- An empty database and an empty upload directory. -/
def st0 : ServerState :=
  { db := { nextReportId := 1, reports := [], repair_jobs := [], alarms := [] }
    disk := [] }

/-- All external collaborators behave. -/
def oracle0 : Oracle := { flushFails := false, commitFails := false, emailFails := false }

/-- The SMTP transport raises on send. -/
def oracleEmailFail : Oracle := { flushFails := false, commitFails := false, emailFails := true }

/-- The database raises on commit. -/
def oracleCommitFail : Oracle := { flushFails := false, commitFails := true, emailFails := false }

/-- A well-formed form submission: valid container code, valid date,
technician name, two jobs with no per-job fields, the alarm list of the
specification's test vector, one image upload. -/
def fdA : FieldMap :=
  [("containernr", "ABCD1234567"), ("datum", "2024-05-06"),
   ("naam", "Jan"), ("job_count", "2")]

/-- The request carrying `fdA`. -/
def reqA : Request :=
  { isJson := false, form := fdA, formAlarms := ["", "  ", "E5"],
    jsonBody := [], files := ["a.png"] }

/-- The report row `fdA` builds. -/
def reportA : RepairReport :=
  { container_number := some "ABCD1234567"
    report_date := { year := 2024, month := 5, day := 6 }
    technician_name := some "Jan"
    model := none
    serial_number := none
    warranty_id := none
    warranty_status := none
    setpoint := 0
    vents := none
    humidity := none
    ambient_temp := 0
    supply_temp_before := 0
    supply_temp_after := 0
    return_temp_before := 0
    return_temp_after := 0
    temp_in_range := none
    problem_description := none
    comments := none }

/-- The job row produced for an index whose fields are all absent. -/
def defaultJob (rid : Nat) : RepairJob :=
  { report_id := rid, job_code := none, description := none, part_number := none,
    part_description := none, quantity := 1, damage_type := none,
    old_serial := none, new_serial := none, labor_hours := 0 }

/-- A submission whose container code violates the required format. -/
def reqBadContainer : Request :=
  { isJson := false
    form := [("containernr", "BAD1"), ("datum", "2024-05-06"), ("naam", "Jan")]
    formAlarms := [], jsonBody := [], files := [] }

/-- A submission whose date is unparseable. -/
def reqBadDate : Request :=
  { isJson := false
    form := [("containernr", "ABCD1234567"), ("datum", "sometime"), ("naam", "Jan")]
    formAlarms := [], jsonBody := [], files := [] }

/-- A request whose body is neither form data nor JSON. -/
def reqEmpty : Request :=
  { isJson := false, form := [], formAlarms := [], jsonBody := [], files := [] }

/-- A pure JSON submission whose body carries a non-blank alarm entry. -/
def reqJson : Request :=
  { isJson := true, form := [], formAlarms := []
    jsonBody := [("containernr", "ABCD1234567"), ("datum", "2024-05-06"),
                 ("naam", "Jan"), ("alarm[]", "E5")]
    files := [] }

/-- All nine indexed fields of job `i` are absent from the field map. -/
def jobFieldsAbsent (fd : FieldMap) (i : Nat) : Prop :=
  fmGet fd (jobKey i "code") = none ∧
  fmGet fd (jobKey i "description") = none ∧
  fmGet fd (jobKey i "part_number") = none ∧
  fmGet fd (jobKey i "part_description") = none ∧
  fmGet fd (jobKey i "quantity") = none ∧
  fmGet fd (jobKey i "damage_type") = none ∧
  fmGet fd (jobKey i "old_serial") = none ∧
  fmGet fd (jobKey i "new_serial") = none ∧
  fmGet fd (jobKey i "labor_hours") = none

instance (fd : FieldMap) (i : Nat) : Decidable (jobFieldsAbsent fd i) := by
  unfold jobFieldsAbsent
  infer_instance

/-! ## Generic lemmas about the embedded operations -/

theorem buildJobsFrom_length (build : Nat → Except PyErr RepairJob) :
    ∀ (l : List Nat) (js : List RepairJob),
      buildJobsFrom build l = .ok js → js.length = l.length := by
  intro l
  induction l with
  | nil =>
      intro js h
      simp only [buildJobsFrom] at h
      cases h
      rfl
  | cons i rest ih =>
      intro js h
      simp only [buildJobsFrom] at h
      cases hb : build i with
      | error e => rw [hb] at h; cases h
      | ok j =>
          rw [hb] at h
          cases hr : buildJobsFrom build rest with
          | error e => rw [hr] at h; cases h
          | ok js0 =>
              rw [hr] at h
              cases h
              simp [ih js0 hr]

theorem buildJobsFrom_mem (build : Nat → Except PyErr RepairJob) :
    ∀ (l : List Nat) (js : List RepairJob),
      buildJobsFrom build l = .ok js →
      ∀ j ∈ js, ∃ i, i ∈ l ∧ build i = .ok j := by
  intro l
  induction l with
  | nil =>
      intro js h j hj
      simp only [buildJobsFrom] at h
      cases h
      cases hj
  | cons i rest ih =>
      intro js h j hj
      simp only [buildJobsFrom] at h
      cases hb : build i with
      | error e => rw [hb] at h; cases h
      | ok j0 =>
          rw [hb] at h
          cases hr : buildJobsFrom build rest with
          | error e => rw [hr] at h; cases h
          | ok js0 =>
              rw [hr] at h
              cases h
              rcases List.mem_cons.mp hj with hj | hj
              · exact ⟨i, List.mem_cons_self i rest, by rw [hb, hj]⟩
              · obtain ⟨i1, hi1, hb1⟩ := ih js0 hr j hj
                exact ⟨i1, List.mem_cons_of_mem i hi1, hb1⟩

theorem buildJobsFrom_getElem (build : Nat → Except PyErr RepairJob) :
    ∀ (l : List Nat) (js : List RepairJob),
      buildJobsFrom build l = .ok js →
      ∀ (k i : Nat), l[k]? = some i →
        ∃ j, js[k]? = some j ∧ build i = .ok j := by
  intro l
  induction l with
  | nil =>
      intro js h k i hk
      simp at hk
  | cons i0 rest ih =>
      intro js h k i hk
      simp only [buildJobsFrom] at h
      cases hb : build i0 with
      | error e => rw [hb] at h; cases h
      | ok j0 =>
          rw [hb] at h
          cases hr : buildJobsFrom build rest with
          | error e => rw [hr] at h; cases h
          | ok js0 =>
              rw [hr] at h
              cases h
              cases k with
              | zero =>
                  simp only [List.getElem?_cons_zero, Option.some.injEq] at hk
                  exact ⟨j0, by simp, by rw [← hk]; exact hb⟩
              | succ k0 =>
                  simp only [List.getElem?_cons_succ] at hk
                  obtain ⟨j1, hj1, hb1⟩ := ih js0 hr k0 i hk
                  exact ⟨j1, by simpa using hj1, hb1⟩

theorem buildJob_app_report_id (fd : FieldMap) (rid i : Nat) (j : RepairJob)
    (h : buildJob_app fd rid i = .ok j) : j.report_id = rid := by
  unfold buildJob_app at h
  cases h1 : orDefaultInt (fmGet fd (jobKey i "quantity")) 1 with
  | error e => rw [h1] at h; cases h
  | ok q =>
      rw [h1] at h
      cases h2 : orDefaultFloat (fmGet fd (jobKey i "labor_hours")) with
      | error e => rw [h2] at h; cases h
      | ok lh => rw [h2] at h; cases h; rfl

theorem buildJob_App_report_id (fd : FieldMap) (rid i : Nat) (j : RepairJob)
    (h : buildJob_App fd rid i = .ok j) : j.report_id = rid := by
  unfold buildJob_App at h
  cases h1 : getIntDefault fd (jobKey i "quantity") 1 with
  | error e => rw [h1] at h; cases h
  | ok q =>
      rw [h1] at h
      cases h2 : floatField fd (jobKey i "labor_hours") with
      | error e => rw [h2] at h; cases h
      | ok lh => rw [h2] at h; cases h; rfl

theorem buildJob_app_absent (fd : FieldMap) (rid i : Nat)
    (h : jobFieldsAbsent fd i) : buildJob_app fd rid i = .ok (defaultJob rid) := by
  obtain ⟨h1, h2, h3, h4, h5, h6, h7, h8, h9⟩ := h
  simp [buildJob_app, h1, h2, h3, h4, h5, h6, h7, h8, h9,
    orDefaultInt, orDefaultFloat, defaultJob]

theorem buildJob_App_absent (fd : FieldMap) (rid i : Nat)
    (h : jobFieldsAbsent fd i) : buildJob_App fd rid i = .ok (defaultJob rid) := by
  obtain ⟨h1, h2, h3, h4, h5, h6, h7, h8, h9⟩ := h
  simp [buildJob_App, h1, h2, h3, h4, h5, h6, h7, h8, h9,
    getIntDefault, floatField, defaultJob]

theorem alarmRows_report_id (as : List String) (rid : Nat) :
    ∀ a ∈ alarmRows as rid, a.report_id = rid := by
  intro a ha
  simp only [alarmRows, List.mem_filterMap] at ha
  obtain ⟨s, _, h⟩ := ha
  by_cases ht : pyStrip s = ""
  · simp [ht] at h
  · simp only [ht, if_pos, ne_eq, not_false_iff] at h
    rw [← Option.some.injEq] at h
    simp at h
    rw [← h]

theorem alarmRows_codes (as : List String) (rid : Nat) :
    (alarmRows as rid).map Alarm.alarm_code
      = (as.map pyStrip).filter (fun t => t ≠ "") := by
  induction as with
  | nil => rfl
  | cons a rest ih =>
      by_cases h : pyStrip a = ""
      · simpa [alarmRows, h] using ih
      · simpa [alarmRows, h] using ih

theorem saveFiles_app_disk (files : List String) :
    ∀ disk : List String,
      (saveFiles_app files disk).2 = disk ++ (saveFiles_app files disk).1 := by
  induction files with
  | nil => intro disk; simp [saveFiles_app]
  | cons name rest ih =>
      intro disk
      by_cases h : (name != "" && allowed_file name) = true
      · simp only [saveFiles_app, h, if_true]
        rw [ih (disk ++ [name])]
        simp
      · simp only [saveFiles_app, h, if_false]
        exact ih disk

theorem process_uploaded_files_disk (files : List String) :
    ∀ disk : List String,
      (process_uploaded_files files disk).2
        = disk ++ (process_uploaded_files files disk).1 := by
  induction files with
  | nil => intro disk; simp [process_uploaded_files]
  | cons name rest ih =>
      intro disk
      by_cases h : (name == "" || !allowed_file name) = true
      · simp only [process_uploaded_files, h, if_true]
        exact ih disk
      · simp only [process_uploaded_files, h, if_false]
        rw [ih (disk ++ [name])]
        simp

theorem cleanup_files_perm :
    ∀ (saved base disk : List String), List.Perm disk (base ++ saved) →
      List.Perm (cleanup_files saved disk) base := by
  intro saved
  induction saved with
  | nil =>
      intro base disk h
      simpa [cleanup_files] using h
  | cons p rest ih =>
      intro base disk h
      simp only [cleanup_files]
      apply ih
      have h1 : List.Perm (disk.erase p) ((base ++ p :: rest).erase p) :=
        h.erase p
      have h2 : List.Perm (base ++ p :: rest) (p :: (base ++ rest)) :=
        List.perm_middle
      have h3 : List.Perm ((base ++ p :: rest).erase p)
          ((p :: (base ++ rest)).erase p) := h2.erase p
      rw [List.erase_cons_head] at h3
      exact h1.trans h3

/-! ## Evaluation lemmas for the two handlers -/

theorem submit_app_success_eq
    (req : Request) (o : Oracle) (st : ServerState)
    (report : RepairReport) (jc : Int) (jrows : List RepairJob)
    (hm : (!req.isJson && !formTruthy req) = false)
    (hc : containerFormatOk (fmGetD (formDataOf req) "containernr" "") = true)
    (hrep : buildReport (formDataOf req)
        (some (fmGetD (formDataOf req) "containernr" "")) = .ok report)
    (hfl : o.flushFails = false)
    (htech : report.technician_name.isSome = true)
    (hjc : getIntDefault (formDataOf req) "job_count" 0 = .ok jc)
    (hjobs : buildJobsFrom (buildJob_app (formDataOf req) st.db.nextReportId)
        (List.range jc.toNat) = .ok jrows)
    (hcm : o.commitFails = false) :
    app_py.submit_report req o st =
      (successResponse st.db.nextReportId,
       { db := { nextReportId := st.db.nextReportId + 1
                 reports := st.db.reports ++ [(st.db.nextReportId, report)]
                 repair_jobs := st.db.repair_jobs ++ jrows
                 alarms := st.db.alarms ++ alarmRows req.formAlarms st.db.nextReportId }
         disk := (saveFiles_app req.files st.disk).2 }) := by
  simp [app_py.submit_report, hm, hc, hrep, hfl, htech, hjc, hjobs, hcm]

theorem submit_App_success_eq
    (req : Request) (o : Oracle) (st : ServerState)
    (report : RepairReport) (jc : Int) (jrows : List RepairJob)
    (hrep : buildReport req.form (fmGet req.form "containernr") = .ok report)
    (hjc : getIntDefault req.form "job_count" 0 = .ok jc)
    (hjobs : buildJobsFrom (buildJob_App req.form st.db.nextReportId)
        (List.range jc.toNat) = .ok jrows)
    (hcm : o.commitFails = false)
    (hnn : (report.container_number.isSome && report.technician_name.isSome) = true)
    (hem : o.emailFails = false) :
    App_py.submit_report req o st =
      (successResponse st.db.nextReportId,
       { db := { nextReportId := st.db.nextReportId + 1
                 reports := st.db.reports ++ [(st.db.nextReportId, report)]
                 repair_jobs := st.db.repair_jobs ++ jrows
                 alarms := st.db.alarms ++ alarmRows req.formAlarms st.db.nextReportId }
         disk := cleanup_files (process_uploaded_files req.files st.disk).1
                   (process_uploaded_files req.files st.disk).2 }) := by
  simp [App_py.submit_report, hrep, hjc, hjobs, hcm, hnn, hem]

theorem submit_App_emailFail_eq
    (req : Request) (o : Oracle) (st : ServerState)
    (report : RepairReport) (jc : Int) (jrows : List RepairJob)
    (hrep : buildReport req.form (fmGet req.form "containernr") = .ok report)
    (hjc : getIntDefault req.form "job_count" 0 = .ok jc)
    (hjobs : buildJobsFrom (buildJob_App req.form st.db.nextReportId)
        (List.range jc.toNat) = .ok jrows)
    (hcm : o.commitFails = false)
    (hnn : (report.container_number.isSome && report.technician_name.isSome) = true)
    (hem : o.emailFails = true) :
    App_py.submit_report req o st =
      (errResponse_App PyErr.smtpError,
       { db := { nextReportId := st.db.nextReportId + 1
                 reports := st.db.reports ++ [(st.db.nextReportId, report)]
                 repair_jobs := st.db.repair_jobs ++ jrows
                 alarms := st.db.alarms ++ alarmRows req.formAlarms st.db.nextReportId }
         disk := (process_uploaded_files req.files st.disk).2 }) := by
  simp [App_py.submit_report, hrep, hjc, hjobs, hcm, hnn, hem]

/-- If the date field is present but unparseable, building the report row
raises `ValueError` (the first fallible conversion in source order). -/
theorem buildReport_badDate (fd : FieldMap) (c : Option String) (s : String)
    (h1 : fmGet fd "datum" = some s) (h2 : strptimeYmd s = none) :
    buildReport fd c = .error PyErr.valueError := by
  simp [buildReport, strptimeField, h1, h2]

/-- All-or-nothing outcome of one submission against the committed database:
either it is untouched, or it gained exactly one report row carrying the next
id plus job and alarm rows that all reference that id. -/
def atomicOutcome (d d' : DBState) : Prop :=
  d' = d ∨
  ∃ (report : RepairReport) (jrows : List RepairJob) (arows : List Alarm),
    d' = { nextReportId := d.nextReportId + 1
           reports := d.reports ++ [(d.nextReportId, report)]
           repair_jobs := d.repair_jobs ++ jrows
           alarms := d.alarms ++ arows } ∧
    (∀ j ∈ jrows, j.report_id = d.nextReportId) ∧
    (∀ a ∈ arows, a.report_id = d.nextReportId)

theorem atomic_app (req : Request) (o : Oracle) (st : ServerState) :
    atomicOutcome st.db (app_py.submit_report req o st).2.db := by
  simp only [app_py.submit_report]
  split
  · exact Or.inl rfl
  split
  · exact Or.inl rfl
  split
  · exact Or.inl rfl
  next report hrep =>
    split
    · exact Or.inl rfl
    split
    · exact Or.inl rfl
    next jc hjc =>
      split
      · exact Or.inl rfl
      next jrows hjobs =>
        split
        · exact Or.inl rfl
        · refine Or.inr ⟨report, jrows,
            alarmRows req.formAlarms st.db.nextReportId, rfl, ?_, ?_⟩
          · intro j hj
            obtain ⟨i, _, hb⟩ := buildJobsFrom_mem _ _ _ hjobs j hj
            exact buildJob_app_report_id _ _ _ _ hb
          · exact alarmRows_report_id _ _

theorem atomic_App (req : Request) (o : Oracle) (st : ServerState) :
    atomicOutcome st.db (App_py.submit_report req o st).2.db := by
  simp only [App_py.submit_report]
  split
  · exact Or.inl rfl
  next report hrep =>
    split
    · exact Or.inl rfl
    next jc hjc =>
      split
      · exact Or.inl rfl
      next jrows hjobs =>
        split
        · exact Or.inl rfl
        · have hjk : ∀ j ∈ jrows, j.report_id = st.db.nextReportId := by
            intro j hj
            obtain ⟨i, _, hb⟩ := buildJobsFrom_mem _ _ _ hjobs j hj
            exact buildJob_App_report_id _ _ _ _ hb
          have hak := alarmRows_report_id req.formAlarms st.db.nextReportId
          split
          · exact Or.inr ⟨report, jrows, _, rfl, hjk, hak⟩
          · exact Or.inr ⟨report, jrows, _, rfl, hjk, hak⟩

theorem app_submit_flushFail (req : Request) (o : Oracle) (st : ServerState)
    (h : o.flushFails = true) :
    (app_py.submit_report req o st).2.db = st.db := by
  simp only [app_py.submit_report, h, Bool.true_or]
  split
  · rfl
  split
  · rfl
  split <;> rfl

theorem app_submit_commitFail (req : Request) (o : Oracle) (st : ServerState)
    (h : o.commitFails = true) :
    (app_py.submit_report req o st).2.db = st.db := by
  simp only [app_py.submit_report, h]
  split
  · rfl
  split
  · rfl
  split
  · rfl
  · split
    · rfl
    · split
      · rfl
      · split
        · rfl
        · rfl

theorem App_submit_commitFail (req : Request) (o : Oracle) (st : ServerState)
    (h : o.commitFails = true) :
    (App_py.submit_report req o st).2.db = st.db := by
  simp only [App_py.submit_report, h, Bool.true_or]
  split
  · rfl
  · split
    · rfl
    · split
      · rfl
      · rfl

/-! ## The claims -/

/-- Claim C1, as stated, is false: src/App.py performs no container-code
validation.  The concrete submission `reqBadContainer` carries the container
code "BAD1", which fails the required format, yet `App_py.submit_report`
answers 200/success and persists a report row holding that code — not the
HTTP 400 with no database row that the claim requires of the submit
operation. -/
theorem C1_counterexample :
    containerFormatOk "BAD1" = false ∧
    (App_py.submit_report reqBadContainer oracle0 st0).1.httpCode = 200 ∧
    (App_py.submit_report reqBadContainer oracle0 st0).1.status = "success" ∧
    ((App_py.submit_report reqBadContainer oracle0 st0).2.db.reports.map
        (fun p => p.2.container_number)) = [some "BAD1"] := by
  decide

/-- Claim C1 (amended): in src/app.py, every submission that passes the
media-type check and whose container code fails the format check (length 11,
first four alphabetic, last seven numeric) is answered with HTTP 400 and
leaves the server state — database and disk — unchanged; src/App.py performs
no container-code validation and persists a report row with an arbitrary
container string, witnessed by the concrete run on `reqBadContainer`. -/
theorem C1_amended_thm :
    (∀ (req : Request) (o : Oracle) (st : ServerState),
      (!req.isJson && !formTruthy req) = false →
      containerFormatOk (fmGetD (formDataOf req) "containernr" "") = false →
      app_py.submit_report req o st =
        ({ status := "error", message := "Invalid container number format",
           httpCode := 400, report_id := none }, st)) ∧
    ((App_py.submit_report reqBadContainer oracle0 st0).2.db.reports.map
        (fun p => p.2.container_number)) = [some "BAD1"] := by
  constructor
  · intro req o st hm hc
    simp [app_py.submit_report, hm, hc]
  · decide

/-- Witness for C1 (amended), at the concrete invalid-container submission. -/
theorem C1_witness :
    app_py.submit_report reqBadContainer oracle0 st0 =
      ({ status := "error", message := "Invalid container number format",
         httpCode := 400, report_id := none }, st0) :=
  C1_amended_thm.1 reqBadContainer oracle0 st0 (by decide) (by decide)

/-- Claim C2: submissions are all-or-nothing.  If the flush raises
(src/app.py) or the commit raises (both files), the committed database is
unchanged afterward; and in every run of either handler the committed
database is either untouched or extended by exactly one report row (under
the next id) plus job and alarm rows that all reference that report's id. -/
theorem C2_thm (req : Request) (o : Oracle) (st : ServerState) :
    (o.flushFails = true → (app_py.submit_report req o st).2.db = st.db) ∧
    (o.commitFails = true →
      (app_py.submit_report req o st).2.db = st.db ∧
      (App_py.submit_report req o st).2.db = st.db) ∧
    atomicOutcome st.db (app_py.submit_report req o st).2.db ∧
    atomicOutcome st.db (App_py.submit_report req o st).2.db :=
  ⟨app_submit_flushFail req o st,
   fun h => ⟨app_submit_commitFail req o st h, App_submit_commitFail req o st h⟩,
   atomic_app req o st, atomic_App req o st⟩

/-- Witness for C2: a failing commit on the otherwise valid submission
`reqA` leaves the empty database empty in both variants. -/
theorem C2_witness :
    (app_py.submit_report reqA oracleCommitFail st0).2.db = st0.db ∧
    (App_py.submit_report reqA oracleCommitFail st0).2.db = st0.db :=
  (C2_thm reqA oracleCommitFail st0).2.1 rfl

/-- Claim C3, as stated, is false on src/App.py: on the valid submission
`reqA`, with persistence committed and the mail transport raising, the
response is an error with HTTP 500 and no `report_id` — not the
`"success"`-with-`report_id` the claim requires — even though the committed
report row remains in the database. -/
theorem C3_counterexample :
    (App_py.submit_report reqA oracleEmailFail st0).1.status = "error" ∧
    (App_py.submit_report reqA oracleEmailFail st0).1.httpCode = 500 ∧
    (App_py.submit_report reqA oracleEmailFail st0).1.report_id = none ∧
    (App_py.submit_report reqA oracleEmailFail st0).2.db.reports.length = 1 := by
  decide

/-- Claim C3 (amended): a mail-transport failure never rolls back rows.
In src/app.py the whole outcome — response and state — is independent of
whether the send raises (the exception is swallowed before commit), so a
run that would succeed still returns `"success"` with the `report_id`.
In src/App.py, however, a send failure after the commit turns the response
into a 500 error while the committed rows remain in the database. -/
theorem C3_amended_thm :
    (∀ (req : Request) (o : Oracle) (st : ServerState) (e : Bool),
      app_py.submit_report req { o with emailFails := e } st
        = app_py.submit_report req { o with emailFails := false } st) ∧
    (∀ (req : Request) (o : Oracle) (st : ServerState)
        (report : RepairReport) (jc : Int) (jrows : List RepairJob),
      buildReport req.form (fmGet req.form "containernr") = .ok report →
      getIntDefault req.form "job_count" 0 = .ok jc →
      buildJobsFrom (buildJob_App req.form st.db.nextReportId)
          (List.range jc.toNat) = .ok jrows →
      o.commitFails = false →
      (report.container_number.isSome && report.technician_name.isSome) = true →
      o.emailFails = true →
      (App_py.submit_report req o st).1 = errResponse_App PyErr.smtpError ∧
      (App_py.submit_report req o st).2.db =
        { nextReportId := st.db.nextReportId + 1
          reports := st.db.reports ++ [(st.db.nextReportId, report)]
          repair_jobs := st.db.repair_jobs ++ jrows
          alarms := st.db.alarms ++ alarmRows req.formAlarms st.db.nextReportId }) := by
  constructor
  · intro req o st e
    rfl
  · intro req o st report jc jrows hrep hjc hjobs hcm hnn hem
    rw [submit_App_emailFail_eq req o st report jc jrows hrep hjc hjobs hcm hnn hem]
    exact ⟨rfl, rfl⟩

/-- Witness for C3 (amended), at the concrete valid submission `reqA` with
a raising mail transport. -/
theorem C3_witness :
    (App_py.submit_report reqA oracleEmailFail st0).1 = errResponse_App PyErr.smtpError ∧
    (App_py.submit_report reqA oracleEmailFail st0).2.db =
      { nextReportId := st0.db.nextReportId + 1
        reports := st0.db.reports ++ [(st0.db.nextReportId, reportA)]
        repair_jobs := st0.db.repair_jobs ++ [defaultJob 1, defaultJob 1]
        alarms := st0.db.alarms ++ alarmRows reqA.formAlarms st0.db.nextReportId } :=
  C3_amended_thm.2 reqA oracleEmailFail st0 reportA 2 [defaultJob 1, defaultJob 1]
    rfl rfl rfl rfl (by decide) rfl

/-- Claim C4: for every valid submission with `job_count = N` — in either
variant — exactly `N` job rows are created, and every one of them carries
the id of the report row created by the same submission as its
`report_id` foreign key. -/
theorem C4_thm :
    (∀ (req : Request) (o : Oracle) (st : ServerState)
        (report : RepairReport) (N : Nat) (jrows : List RepairJob),
      (!req.isJson && !formTruthy req) = false →
      containerFormatOk (fmGetD (formDataOf req) "containernr" "") = true →
      buildReport (formDataOf req)
          (some (fmGetD (formDataOf req) "containernr" "")) = .ok report →
      o.flushFails = false →
      report.technician_name.isSome = true →
      getIntDefault (formDataOf req) "job_count" 0 = .ok (Int.ofNat N) →
      buildJobsFrom (buildJob_app (formDataOf req) st.db.nextReportId)
          (List.range (Int.ofNat N).toNat) = .ok jrows →
      o.commitFails = false →
      (app_py.submit_report req o st).1.report_id = some st.db.nextReportId ∧
      (app_py.submit_report req o st).2.db.repair_jobs
        = st.db.repair_jobs ++ jrows ∧
      jrows.length = N ∧
      (∀ j ∈ jrows, j.report_id = st.db.nextReportId)) ∧
    (∀ (req : Request) (o : Oracle) (st : ServerState)
        (report : RepairReport) (N : Nat) (jrows : List RepairJob),
      buildReport req.form (fmGet req.form "containernr") = .ok report →
      getIntDefault req.form "job_count" 0 = .ok (Int.ofNat N) →
      buildJobsFrom (buildJob_App req.form st.db.nextReportId)
          (List.range (Int.ofNat N).toNat) = .ok jrows →
      o.commitFails = false →
      (report.container_number.isSome && report.technician_name.isSome) = true →
      o.emailFails = false →
      (App_py.submit_report req o st).1.report_id = some st.db.nextReportId ∧
      (App_py.submit_report req o st).2.db.repair_jobs
        = st.db.repair_jobs ++ jrows ∧
      jrows.length = N ∧
      (∀ j ∈ jrows, j.report_id = st.db.nextReportId)) := by
  constructor
  · intro req o st report N jrows hm hc hrep hfl htech hjc hjobs hcm
    rw [submit_app_success_eq req o st report (Int.ofNat N) jrows
      hm hc hrep hfl htech hjc hjobs hcm]
    refine ⟨rfl, rfl, ?_, ?_⟩
    · simpa using buildJobsFrom_length _ _ _ hjobs
    · intro j hj
      obtain ⟨i, _, hb⟩ := buildJobsFrom_mem _ _ _ hjobs j hj
      exact buildJob_app_report_id _ _ _ _ hb
  · intro req o st report N jrows hrep hjc hjobs hcm hnn hem
    rw [submit_App_success_eq req o st report (Int.ofNat N) jrows
      hrep hjc hjobs hcm hnn hem]
    refine ⟨rfl, rfl, ?_, ?_⟩
    · simpa using buildJobsFrom_length _ _ _ hjobs
    · intro j hj
      obtain ⟨i, _, hb⟩ := buildJobsFrom_mem _ _ _ hjobs j hj
      exact buildJob_App_report_id _ _ _ _ hb

/-- Witness for C4, at the valid submission `reqA` with `job_count = 2`. -/
theorem C4_witness :
    (app_py.submit_report reqA oracle0 st0).1.report_id = some st0.db.nextReportId ∧
    (app_py.submit_report reqA oracle0 st0).2.db.repair_jobs
      = st0.db.repair_jobs ++ [defaultJob 1, defaultJob 1] ∧
    ([defaultJob 1, defaultJob 1] : List RepairJob).length = 2 ∧
    (∀ j ∈ ([defaultJob 1, defaultJob 1] : List RepairJob),
      j.report_id = st0.db.nextReportId) :=
  C4_thm.1 reqA oracle0 st0 reportA 2 [defaultJob 1, defaultJob 1]
    (by decide) (by decide) rfl rfl (by decide) rfl rfl rfl

/-- Claim C5: in both variants, each entry of the submitted alarm list is
stripped of surrounding whitespace; entries that are blank after stripping
are discarded, the rest are persisted once each, in order, with their
stripped value; in particular the list `["", "  ", "E5"]` yields exactly
the one alarm row `"E5"`.  On a successful run of either handler the alarms
table is extended by exactly `alarmRows` of the submitted list. -/
theorem C5_thm :
    (∀ (as : List String) (rid : Nat),
      (alarmRows as rid).map Alarm.alarm_code
        = (as.map pyStrip).filter (fun t => t ≠ "")) ∧
    (∀ rid : Nat, alarmRows ["", "  ", "E5"] rid
        = [{ report_id := rid, alarm_code := "E5" }]) ∧
    (∀ (req : Request) (o : Oracle) (st : ServerState)
        (report : RepairReport) (jc : Int) (jrows : List RepairJob),
      (!req.isJson && !formTruthy req) = false →
      containerFormatOk (fmGetD (formDataOf req) "containernr" "") = true →
      buildReport (formDataOf req)
          (some (fmGetD (formDataOf req) "containernr" "")) = .ok report →
      o.flushFails = false →
      report.technician_name.isSome = true →
      getIntDefault (formDataOf req) "job_count" 0 = .ok jc →
      buildJobsFrom (buildJob_app (formDataOf req) st.db.nextReportId)
          (List.range jc.toNat) = .ok jrows →
      o.commitFails = false →
      (app_py.submit_report req o st).2.db.alarms
        = st.db.alarms ++ alarmRows req.formAlarms st.db.nextReportId) ∧
    (∀ (req : Request) (o : Oracle) (st : ServerState)
        (report : RepairReport) (jc : Int) (jrows : List RepairJob),
      buildReport req.form (fmGet req.form "containernr") = .ok report →
      getIntDefault req.form "job_count" 0 = .ok jc →
      buildJobsFrom (buildJob_App req.form st.db.nextReportId)
          (List.range jc.toNat) = .ok jrows →
      o.commitFails = false →
      (report.container_number.isSome && report.technician_name.isSome) = true →
      o.emailFails = false →
      (App_py.submit_report req o st).2.db.alarms
        = st.db.alarms ++ alarmRows req.formAlarms st.db.nextReportId) := by
  refine ⟨alarmRows_codes, fun rid => rfl, ?_, ?_⟩
  · intro req o st report jc jrows hm hc hrep hfl htech hjc hjobs hcm
    rw [submit_app_success_eq req o st report jc jrows
      hm hc hrep hfl htech hjc hjobs hcm]
  · intro req o st report jc jrows hrep hjc hjobs hcm hnn hem
    rw [submit_App_success_eq req o st report jc jrows
      hrep hjc hjobs hcm hnn hem]

/-- Witness for C5, at the valid submission `reqA`, whose alarm list is the
specification's vector `["", "  ", "E5"]`. -/
theorem C5_witness :
    (app_py.submit_report reqA oracle0 st0).2.db.alarms
      = st0.db.alarms ++ alarmRows reqA.formAlarms st0.db.nextReportId :=
  C5_thm.2.2.1 reqA oracle0 st0 reportA 2 [defaultJob 1, defaultJob 1]
    (by decide) (by decide) rfl rfl (by decide) rfl rfl rfl

/-- Claim C6, as stated, is false in both variants: on the successful
submission `reqA` (one image upload), src/app.py leaves "a.png" on disk —
it has no cleanup step at all — and src/App.py leaves "a.png" on disk
whenever the notification raises, because `cleanup_files` runs only after
a successful `send_email`. -/
theorem C6_counterexample :
    (app_py.submit_report reqA oracle0 st0).1.status = "success" ∧
    (app_py.submit_report reqA oracle0 st0).2.disk = ["a.png"] ∧
    (App_py.submit_report reqA oracleEmailFail st0).1.httpCode = 500 ∧
    (App_py.submit_report reqA oracleEmailFail st0).2.disk = ["a.png"] := by
  decide

/-- Claim C6 (amended): in src/App.py, a submission whose notification
succeeds removes every file it saved (the upload directory is, up to
permutation, what it was before the request); but when the send raises, the
saved files all remain on disk.  In src/app.py the saved files remain on
disk even on a fully successful run — no removal ever happens. -/
theorem C6_amended_thm :
    (∀ (req : Request) (o : Oracle) (st : ServerState)
        (report : RepairReport) (jc : Int) (jrows : List RepairJob),
      buildReport req.form (fmGet req.form "containernr") = .ok report →
      getIntDefault req.form "job_count" 0 = .ok jc →
      buildJobsFrom (buildJob_App req.form st.db.nextReportId)
          (List.range jc.toNat) = .ok jrows →
      o.commitFails = false →
      (report.container_number.isSome && report.technician_name.isSome) = true →
      o.emailFails = false →
      List.Perm ((App_py.submit_report req o st).2.disk) st.disk) ∧
    (∀ (req : Request) (o : Oracle) (st : ServerState)
        (report : RepairReport) (jc : Int) (jrows : List RepairJob),
      buildReport req.form (fmGet req.form "containernr") = .ok report →
      getIntDefault req.form "job_count" 0 = .ok jc →
      buildJobsFrom (buildJob_App req.form st.db.nextReportId)
          (List.range jc.toNat) = .ok jrows →
      o.commitFails = false →
      (report.container_number.isSome && report.technician_name.isSome) = true →
      o.emailFails = true →
      (App_py.submit_report req o st).2.disk
        = st.disk ++ (process_uploaded_files req.files st.disk).1) ∧
    (∀ (req : Request) (o : Oracle) (st : ServerState)
        (report : RepairReport) (jc : Int) (jrows : List RepairJob),
      (!req.isJson && !formTruthy req) = false →
      containerFormatOk (fmGetD (formDataOf req) "containernr" "") = true →
      buildReport (formDataOf req)
          (some (fmGetD (formDataOf req) "containernr" "")) = .ok report →
      o.flushFails = false →
      report.technician_name.isSome = true →
      getIntDefault (formDataOf req) "job_count" 0 = .ok jc →
      buildJobsFrom (buildJob_app (formDataOf req) st.db.nextReportId)
          (List.range jc.toNat) = .ok jrows →
      o.commitFails = false →
      (app_py.submit_report req o st).2.disk
        = st.disk ++ (saveFiles_app req.files st.disk).1) := by
  refine ⟨?_, ?_, ?_⟩
  · intro req o st report jc jrows hrep hjc hjobs hcm hnn hem
    rw [submit_App_success_eq req o st report jc jrows hrep hjc hjobs hcm hnn hem]
    exact cleanup_files_perm _ st.disk _
      (by rw [process_uploaded_files_disk req.files st.disk])
  · intro req o st report jc jrows hrep hjc hjobs hcm hnn hem
    rw [submit_App_emailFail_eq req o st report jc jrows hrep hjc hjobs hcm hnn hem]
    exact process_uploaded_files_disk req.files st.disk
  · intro req o st report jc jrows hm hc hrep hfl htech hjc hjobs hcm
    rw [submit_app_success_eq req o st report jc jrows
      hm hc hrep hfl htech hjc hjobs hcm]
    exact saveFiles_app_disk req.files st.disk

/-- Witness for C6 (amended): a successful `App.py` run on `reqA` restores
the upload directory. -/
theorem C6_witness :
    List.Perm ((App_py.submit_report reqA oracle0 st0).2.disk) st0.disk :=
  C6_amended_thm.1 reqA oracle0 st0 reportA 2 [defaultJob 1, defaultJob 1]
    rfl rfl rfl rfl (by decide) rfl

/-- Claim C7, as stated, is false on src/App.py: the concrete submission
`reqBadDate` has the unparseable date "sometime"; `App_py.submit_report`
does persist nothing, but it answers HTTP 500 (its single generic exception
handler), not the HTTP 400 the claim requires. -/
theorem C7_counterexample :
    strptimeYmd "sometime" = none ∧
    (App_py.submit_report reqBadDate oracle0 st0).1.httpCode = 500 ∧
    (App_py.submit_report reqBadDate oracle0 st0).2.db = st0.db := by
  decide

/-- Claim C7 (amended): a submission whose date field is present but not
parseable as ISO `YYYY-MM-DD` persists no rows in either variant; src/app.py
answers HTTP 400 (its dedicated `ValueError` handler), while src/App.py
answers HTTP 500 (its generic handler). -/
theorem C7_amended_thm :
    (∀ (req : Request) (o : Oracle) (st : ServerState) (s : String),
      (!req.isJson && !formTruthy req) = false →
      containerFormatOk (fmGetD (formDataOf req) "containernr" "") = true →
      fmGet (formDataOf req) "datum" = some s →
      strptimeYmd s = none →
      app_py.submit_report req o st = (errResponse_app PyErr.valueError, st)) ∧
    (∀ (req : Request) (o : Oracle) (st : ServerState) (s : String),
      fmGet req.form "datum" = some s →
      strptimeYmd s = none →
      App_py.submit_report req o st = (errResponse_App PyErr.valueError, st)) := by
  constructor
  · intro req o st s hm hc hdat hbad
    simp [app_py.submit_report, hm, hc,
      buildReport_badDate (formDataOf req) _ s hdat hbad]
  · intro req o st s hdat hbad
    simp [App_py.submit_report, buildReport_badDate req.form _ s hdat hbad]

/-- Witness for C7 (amended), at the concrete bad-date submission. -/
theorem C7_witness :
    app_py.submit_report reqBadDate oracle0 st0
      = (errResponse_app PyErr.valueError, st0) :=
  C7_amended_thm.1 reqBadDate oracle0 st0 "sometime"
    (by decide) (by decide) rfl (by decide)

/-- Claim C8, as stated, is false on src/App.py: on the concrete request
`reqEmpty`, whose body is neither form data nor JSON, `App_py.submit_report`
makes no persistence attempt but answers HTTP 500 (the missing date field
raises `TypeError` inside its generic handler), not the HTTP 415 the claim
requires. -/
theorem C8_counterexample :
    reqEmpty.isJson = false ∧ reqEmpty.form = [] ∧ reqEmpty.formAlarms = [] ∧
    (App_py.submit_report reqEmpty oracle0 st0).1.httpCode = 500 ∧
    (App_py.submit_report reqEmpty oracle0 st0).2.db = st0.db := by
  decide

/-- Claim C8 (amended): src/app.py answers a request whose body is neither
form data nor JSON with HTTP 415 and an unchanged server state; src/App.py
has no such check — with an empty form it fails the date lookup and answers
HTTP 500, also with an unchanged state. -/
theorem C8_amended_thm :
    (∀ (req : Request) (o : Oracle) (st : ServerState),
      req.isJson = false → req.form = [] → req.formAlarms = [] →
      app_py.submit_report req o st =
        ({ status := "error", message := "Unsupported content type",
           httpCode := 415, report_id := none }, st)) ∧
    (∀ (req : Request) (o : Oracle) (st : ServerState),
      req.form = [] →
      App_py.submit_report req o st = (errResponse_App PyErr.typeError, st)) := by
  constructor
  · intro req o st hj hform halarm
    simp [app_py.submit_report, formTruthy, hj, hform, halarm]
  · intro req o st hform
    simp [App_py.submit_report, hform, buildReport, strptimeField, fmGet]

/-- Witness for C8 (amended), at the concrete empty request. -/
theorem C8_witness :
    app_py.submit_report reqEmpty oracle0 st0 =
      ({ status := "error", message := "Unsupported content type",
         httpCode := 415, report_id := none }, st0) :=
  C8_amended_thm.1 reqEmpty oracle0 st0 rfl rfl rfl

/-- Claim C9: in both variants, a job index whose nine indexed fields are
all absent from the field map still yields a job row — `quantity`
defaulting to 1 and `labor_hours` to 0, all other fields null — and on a
successful run with `job_count = N` that default row sits at position `i`
of the rows appended to the jobs table. -/
theorem C9_thm :
    (∀ (fd : FieldMap) (rid i : Nat), jobFieldsAbsent fd i →
      buildJob_app fd rid i = .ok (defaultJob rid)) ∧
    (∀ (fd : FieldMap) (rid i : Nat), jobFieldsAbsent fd i →
      buildJob_App fd rid i = .ok (defaultJob rid)) ∧
    (∀ (req : Request) (o : Oracle) (st : ServerState)
        (report : RepairReport) (N : Nat) (jrows : List RepairJob) (i : Nat),
      (!req.isJson && !formTruthy req) = false →
      containerFormatOk (fmGetD (formDataOf req) "containernr" "") = true →
      buildReport (formDataOf req)
          (some (fmGetD (formDataOf req) "containernr" "")) = .ok report →
      o.flushFails = false →
      report.technician_name.isSome = true →
      getIntDefault (formDataOf req) "job_count" 0 = .ok (Int.ofNat N) →
      buildJobsFrom (buildJob_app (formDataOf req) st.db.nextReportId)
          (List.range (Int.ofNat N).toNat) = .ok jrows →
      o.commitFails = false →
      i < N →
      jobFieldsAbsent (formDataOf req) i →
      ((app_py.submit_report req o st).2.db.repair_jobs)[st.db.repair_jobs.length + i]?
        = some (defaultJob st.db.nextReportId)) ∧
    (∀ (req : Request) (o : Oracle) (st : ServerState)
        (report : RepairReport) (N : Nat) (jrows : List RepairJob) (i : Nat),
      buildReport req.form (fmGet req.form "containernr") = .ok report →
      getIntDefault req.form "job_count" 0 = .ok (Int.ofNat N) →
      buildJobsFrom (buildJob_App req.form st.db.nextReportId)
          (List.range (Int.ofNat N).toNat) = .ok jrows →
      o.commitFails = false →
      (report.container_number.isSome && report.technician_name.isSome) = true →
      o.emailFails = false →
      i < N →
      jobFieldsAbsent req.form i →
      ((App_py.submit_report req o st).2.db.repair_jobs)[st.db.repair_jobs.length + i]?
        = some (defaultJob st.db.nextReportId)) := by
  refine ⟨buildJob_app_absent, buildJob_App_absent, ?_, ?_⟩
  · intro req o st report N jrows i hm hc hrep hfl htech hjc hjobs hcm hi habs
    rw [submit_app_success_eq req o st report (Int.ofNat N) jrows
      hm hc hrep hfl htech hjc hjobs hcm]
    have hrange : (List.range (Int.ofNat N).toNat)[i]? = some i :=
      List.getElem?_range (by simpa using hi)
    obtain ⟨j, hj, hb⟩ := buildJobsFrom_getElem _ _ _ hjobs i i hrange
    rw [buildJob_app_absent (formDataOf req) st.db.nextReportId i habs] at hb
    cases hb
    rw [List.getElem?_append_right (Nat.le_add_right _ _), Nat.add_sub_cancel_left]
    exact hj
  · intro req o st report N jrows i hrep hjc hjobs hcm hnn hem hi habs
    rw [submit_App_success_eq req o st report (Int.ofNat N) jrows
      hrep hjc hjobs hcm hnn hem]
    have hrange : (List.range (Int.ofNat N).toNat)[i]? = some i :=
      List.getElem?_range (by simpa using hi)
    obtain ⟨j, hj, hb⟩ := buildJobsFrom_getElem _ _ _ hjobs i i hrange
    rw [buildJob_App_absent req.form st.db.nextReportId i habs] at hb
    cases hb
    rw [List.getElem?_append_right (Nat.le_add_right _ _), Nat.add_sub_cancel_left]
    exact hj

/-- Witness for C9: in the `reqA` run (`job_count = 2`, no per-job fields),
index 0 of the appended job rows is the default row. -/
theorem C9_witness :
    ((app_py.submit_report reqA oracle0 st0).2.db.repair_jobs)[st0.db.repair_jobs.length + 0]?
      = some (defaultJob st0.db.nextReportId) :=
  C9_thm.2.2.1 reqA oracle0 st0 reportA 2 [defaultJob 1, defaultJob 1] 0
    (by decide) (by decide) rfl rfl (by decide) rfl rfl rfl
    (by decide) (by decide)

/-- Claim C10: src/app.py reads alarm entries exclusively from the form
field list `alarm[]`; a pure JSON submission has an empty form, so no run
of the handler on such a request changes the alarms table, whatever alarm
entries the JSON body carries. -/
theorem C10_thm (req : Request) (o : Oracle) (st : ServerState)
    (_hform : req.form = []) (halarm : req.formAlarms = []) :
    (app_py.submit_report req o st).2.db.alarms = st.db.alarms := by
  simp only [app_py.submit_report, halarm]
  split
  · rfl
  split
  · rfl
  split
  · rfl
  · split
    · rfl
    · split
      · rfl
      · split
        · rfl
        · split
          · rfl
          · simp [alarmRows]

/-- Witness for C10: the pure JSON submission `reqJson`, whose body holds
the non-blank alarm entry "E5", succeeds yet persists zero alarm rows. -/
theorem C10_witness :
    (app_py.submit_report reqJson oracle0 st0).1.status = "success" ∧
    (app_py.submit_report reqJson oracle0 st0).2.db.alarms = st0.db.alarms :=
  ⟨by decide, C10_thm reqJson oracle0 st0 rfl rfl⟩
